import Mathlib

/-!
Shallow embedding of `src/test_project/main.c`.

The program is a straight-line `main`:

```c
int main() {
    printf("Starting the main application.\n");   // line 5
    print_greeting();                             // line 6
    int answer = get_answer();                    // line 7
    printf("The retrieved answer is: %d\n", answer); // line 8
    return 0;                                     // line 9
}
```

`print_greeting` and `get_answer` come from the external library `my_lib`,
whose code is not part of the repository; their behaviour is therefore a
parameter of the model: whatever `print_greeting` writes to standard
output, and whatever integer `get_answer` returns.

The embedding is a small-step machine over the program counter of `main`.
Each step appends the events it performs to a trace; standard output and
the exit code are read off the final state.
-/

/-- Behaviour of the external library `my_lib`: the text `print_greeting`
writes to standard output when called, and the integer `get_answer`
returns when called. -/
structure Library where
  greetingOut : String
  answer : Int
deriving Repr, DecidableEq

/-- Observable events a C program step can perform.  The alphabet also
contains thread creation and blocking events, which straight-line code such
as `main` never emits. -/
inductive Event where
  | print (s : String)
  | callPrintGreeting (out : String)
  | callGetAnswer (n : Int)
  | spawnThread
  | blockWait
  | ret (code : Int)
deriving Repr, DecidableEq

/-- Program counter of `main`: the source line about to execute
(`main.c` lines 5 through 9), or `done` after `return`. -/
inductive PC where
  | l5 | l6 | l7 | l8 | l9 | done
deriving Repr, DecidableEq

/-- Machine state: program counter, the local variable `answer`
(`none` before line 7 assigns it), the trace of events performed so far,
and the exit code (`none` until `return` executes). -/
structure State where
  pc : PC
  answer : Option Int
  trace : List Event
  exitCode : Option Int
deriving Repr, DecidableEq

/-- Rendering of a C `int` by the `printf` conversion `%d`: its signed
decimal representation. -/
def formatD (n : Int) : String := toString n

/-- The string literal printed by line 5 of `main.c`. -/
def startLine : String := "Starting the main application.\n"

/-- The output of line 8 of `main.c`: `printf("The retrieved answer is: %d\n", answer)`. -/
def answerLine (n : Int) : String := "The retrieved answer is: " ++ formatD n ++ "\n"

/-- One step of `main`, given the behaviour `lib` of the external library.
Each branch is one line of `main.c`; the `done` state is absorbing. -/
def step (lib : Library) (s : State) : State :=
  match s.pc with
  | .l5 => { s with pc := .l6, trace := s.trace ++ [.print startLine] }
  | .l6 => { s with pc := .l7, trace := s.trace ++ [.callPrintGreeting lib.greetingOut] }
  | .l7 => { s with
             pc := .l8
             answer := some lib.answer
             trace := s.trace ++ [.callGetAnswer lib.answer] }
  | .l8 => { s with
             pc := .l9
             trace := s.trace ++ [.print (answerLine (s.answer.getD 0))] }
  | .l9 => { s with pc := .done, exitCode := some 0, trace := s.trace ++ [.ret 0] }
  | .done => s

/-- Initial state: control at line 5, `answer` unassigned, nothing output. -/
def init : State := { pc := .l5, answer := none, trace := [], exitCode := none }

/-- The state after `k` steps of `main` from the initial state. -/
def run (lib : Library) (k : Nat) : State := (step lib)^[k] init

/-- The final state of `main`: its five lines each take one step. -/
def finalState (lib : Library) : State := run lib 5

/-- The standard output an event contributes: what `printf` writes, or
what the external `print_greeting` writes during its call. -/
def Event.out : Event → String
  | .print s => s
  | .callPrintGreeting o => o
  | _ => ""

/-- Standard output of a trace: the concatenation, in order, of the output
of each event. -/
def stdoutOf (t : List Event) : String := t.foldr (fun e acc => e.out ++ acc) ""

/-- Standard output accumulated in a state. -/
def stdout (s : State) : String := stdoutOf s.trace

/-- The strings printed by `main` itself (its `printf` calls), in order. -/
def printedLines (t : List Event) : List String :=
  t.filterMap (fun e => match e with | .print s => some s | _ => none)

/-- Whether an event is a `printf` by `main` itself. -/
def Event.isPrint : Event → Bool
  | .print _ => true
  | _ => false

/-- Whether an event creates a thread. -/
def Event.isSpawn : Event → Bool
  | .spawnThread => true
  | _ => false

/-- Whether an event blocks or suspends. -/
def Event.isBlock : Event → Bool
  | .blockWait => true
  | _ => false

/-- The whole process run.  `main` is declared with no parameters, so the
command-line arguments and environment the process receives are ignored:
the run depends only on the external library's behaviour. -/
def programRun (_args : List String) (_env : List (String × String))
    (lib : Library) : State := finalState lib

/-- Modelled from the spec: the "signed decimal representation" of an
integer named by C8 — a minus sign for negative values followed by the
decimal digits of the absolute value.  Used to compare against the
source-side `%d` rendering `formatD`. -/
def signedDec (n : Int) : String :=
  if n < 0 then "-" ++ Nat.repr n.natAbs else Nat.repr n.natAbs

/-- The full trace of `main`, computed. -/
theorem finalState_trace (g : String) (n : Int) :
    (finalState ⟨g, n⟩).trace =
      [Event.print startLine, Event.callPrintGreeting g, Event.callGetAnswer n,
       Event.print (answerLine n), Event.ret 0] := rfl

/-- The exit code of `main` is 0. -/
theorem finalState_exitCode (g : String) (n : Int) :
    (finalState ⟨g, n⟩).exitCode = some 0 := rfl

/-- Control reaches the end of `main`. -/
theorem finalState_pc (g : String) (n : Int) :
    (finalState ⟨g, n⟩).pc = PC.done := rfl

/-- Standard output of the whole run, factored into the three pieces. -/
theorem stdout_finalState (g : String) (n : Int) :
    stdout (finalState ⟨g, n⟩) = startLine ++ (g ++ answerLine n) := by
  simp [stdout, finalState_trace, stdoutOf, Event.out]

/-- The `%d` rendering agrees with the spec's signed decimal representation. -/
theorem formatD_eq_signedDec (n : Int) : formatD n = signedDec n := by
  cases n with
  | ofNat m =>
      have h : ¬ ((m : Int) < 0) := not_lt.mpr (Int.natCast_nonneg m)
      simp [formatD, signedDec, toString, Int.repr, Int.natAbs, h]
  | negSucc m =>
      have h : Int.negSucc m < 0 := Int.negSucc_lt_zero m
      simp [formatD, signedDec, toString, Int.repr, Int.natAbs, h]

/-- C1: for every integer `n` that `get_answer` returns and every output of
`print_greeting`, running the program writes to standard output exactly the
line "Starting the main application.", then whatever `print_greeting`
produces, then the line "The retrieved answer is: n", in that order; at
`n = 42` the last line is "The retrieved answer is: 42". -/
theorem claim_C1 : ∀ (g : String) (n : Int),
    stdout (finalState ⟨g, n⟩) = startLine ++ (g ++ answerLine n) ∧
    startLine = "Starting the main application.\n" ∧
    answerLine n = "The retrieved answer is: " ++ formatD n ++ "\n" ∧
    stdout (finalState ⟨g, 42⟩) =
      "Starting the main application.\n" ++ (g ++ "The retrieved answer is: 42\n") := by
  intro g n
  have h42 : answerLine 42 = "The retrieved answer is: 42\n" := by decide
  refine ⟨stdout_finalState g n, rfl, rfl, ?_⟩
  rw [stdout_finalState g 42, h42]
  rfl

/-- C2: whatever the external library does (any greeting output, any
returned integer), `main` has no error branch: control always reaches the
`return` statement and the exit code is 0. -/
theorem claim_C2 : ∀ (g : String) (n : Int),
    (finalState ⟨g, n⟩).pc = PC.done ∧
    (finalState ⟨g, n⟩).exitCode = some 0 ∧
    Event.ret 0 ∈ (finalState ⟨g, n⟩).trace := by
  intro g n
  refine ⟨finalState_pc g n, finalState_exitCode g n, ?_⟩
  rw [finalState_trace]
  simp

/-- C3: `main` performs exactly these steps, each once and in this order:
print "Starting the main application.", call `print_greeting`, call
`get_answer`, print the returned integer with the format
"The retrieved answer is: %d\n", and return success; the trace holds
nothing else. -/
theorem claim_C3 : ∀ (g : String) (n : Int),
    (finalState ⟨g, n⟩).trace =
      [Event.print "Starting the main application.\n",
       Event.callPrintGreeting g,
       Event.callGetAnswer n,
       Event.print ("The retrieved answer is: " ++ formatD n ++ "\n"),
       Event.ret 0] ∧
    (finalState ⟨g, n⟩).exitCode = some 0 := by
  intro g n
  exact ⟨finalState_trace g n, finalState_exitCode g n⟩

/-- C4: observable behaviour is independent of command-line arguments and
environment: two runs with the same library behaviour give the same final
state, so the same standard output and the same exit code, for any
arguments and environments. -/
theorem claim_C4 : ∀ (a₁ a₂ : List String) (e₁ e₂ : List (String × String))
    (lib : Library),
    programRun a₁ e₁ lib = programRun a₂ e₂ lib ∧
    stdout (programRun a₁ e₁ lib) = stdout (programRun a₂ e₂ lib) ∧
    (programRun a₁ e₁ lib).exitCode = (programRun a₂ e₂ lib).exitCode := by
  intro a₁ a₂ e₁ e₂ lib
  exact ⟨rfl, rfl, rfl⟩

/-- C5: the integer returned by `get_answer` is used exactly once, as the
argument of the single formatted print: the trace holds only the two
prints, the two external calls and the return, exactly two events are
prints by `main` itself, those prints are the fixed first line and the one
answer line, and apart from them the output is just the greeting; the exit
code is 0 and no other effect occurs. -/
theorem claim_C5 : ∀ (g : String) (n : Int),
    (finalState ⟨g, n⟩).trace =
      [Event.print startLine, Event.callPrintGreeting g, Event.callGetAnswer n,
       Event.print (answerLine n), Event.ret 0] ∧
    printedLines (finalState ⟨g, n⟩).trace = [startLine, answerLine n] ∧
    (finalState ⟨g, n⟩).trace.countP Event.isPrint = 2 ∧
    stdout (finalState ⟨g, n⟩) = startLine ++ (g ++ answerLine n) ∧
    (finalState ⟨g, n⟩).exitCode = some 0 := by
  intro g n
  refine ⟨finalState_trace g n, ?_, ?_, stdout_finalState g n, finalState_exitCode g n⟩
  · rw [finalState_trace]
    simp [printedLines]
  · rw [finalState_trace]
    simp [List.countP, List.countP.go, Event.isPrint]

/-- C6: `main` terminates whenever the external calls return: the machine
reaches the final state in exactly the five steps of its straight-line
body, and every longer run is the same state. -/
theorem claim_C6 : ∀ (g : String) (n : Int) (k : Nat),
    (run ⟨g, n⟩ 5).pc = PC.done ∧ run ⟨g, n⟩ (5 + k) = run ⟨g, n⟩ 5 := by
  intro g n k
  constructor
  · exact finalState_pc g n
  · rw [Nat.add_comm]
    unfold run
    rw [Function.iterate_add_apply]
    exact Function.iterate_fixed rfl k

/-- C7: execution is single-threaded and synchronous: the trace of `main`
contains no thread-creation event and no blocking or suspension event, for
any behaviour of the external library. -/
theorem claim_C7 : ∀ (g : String) (n : Int),
    (finalState ⟨g, n⟩).trace.countP Event.isSpawn = 0 ∧
    (finalState ⟨g, n⟩).trace.countP Event.isBlock = 0 := by
  intro g n
  refine ⟨?_, ?_⟩ <;> rw [finalState_trace] <;>
    simp [List.countP, List.countP.go, Event.isSpawn, Event.isBlock]

/-- C8: for every integer `n` returned by `get_answer`, zero and negative
values included, the second line printed by `main` is exactly
"The retrieved answer is: " followed by the signed decimal representation
of `n`, and the value reaches the print unmodified: the very integer of the
`get_answer` call appears in the print event. -/
theorem claim_C8 : ∀ (g : String) (n : Int),
    (printedLines (finalState ⟨g, n⟩).trace).get? 1 =
      some ("The retrieved answer is: " ++ signedDec n ++ "\n") ∧
    Event.callGetAnswer n ∈ (finalState ⟨g, n⟩).trace ∧
    Event.print (answerLine n) ∈ (finalState ⟨g, n⟩).trace ∧
    signedDec 0 = "0" ∧ signedDec (-5) = "-5" := by
  intro g n
  refine ⟨?_, ?_, ?_, by decide, by decide⟩
  · rw [finalState_trace]
    simp [printedLines, answerLine, formatD_eq_signedDec]
  · rw [finalState_trace]
    simp
  · rw [finalState_trace]
    simp

/-- C9: the two fixed output lines of `main` and their order do not depend
on `print_greeting`: the trace prints "Starting the main application."
before the `print_greeting` call and prints the answer line after it, and
the lines `main` prints are the same for any two greeting behaviours. -/
theorem claim_C9 : ∀ (g₁ g₂ : String) (n : Int),
    (finalState ⟨g₁, n⟩).trace =
      [Event.print startLine, Event.callPrintGreeting g₁, Event.callGetAnswer n,
       Event.print (answerLine n), Event.ret 0] ∧
    printedLines (finalState ⟨g₁, n⟩).trace = printedLines (finalState ⟨g₂, n⟩).trace ∧
    stdout (finalState ⟨g₁, n⟩) = startLine ++ (g₁ ++ answerLine n) := by
  intro g₁ g₂ n
  refine ⟨finalState_trace g₁ n, ?_, stdout_finalState g₁ n⟩
  rw [finalState_trace, finalState_trace]
  simp [printedLines]
